import Mathlib

/-!
Verification development for the AHPRA_DATA_SCRAP repository.

Shallow embedding of the crawl-frontier / checkpoint / throttle core:
  * `config/settings.py`, `config/professions.py` — constants
  * `src/checkpoint.py`  — `CheckpointManager` (in-memory state + persisted files)
  * `src/search.py`      — `PrefixGenerator`, `RecursivePrefixSearch`,
                           `MultiDimensionalSearch`
  * `src/discovery.py`   — `DiscoveryEngine._run_prefix_discovery` and
                           `DiscoveryEngine._run_multi_dimensional_discovery`
  * `phase2_extract.py`  — the extraction-loop cooldown controller

Modelling conventions:
  * Python sets of strings become `Finset String`; dicts become association
    lists; files become fields of an explicit `FS` (filesystem) record, where
    `none` means "file does not exist".
  * The wall clock is passed explicitly as a `now : String` argument wherever
    the source calls `datetime.now().isoformat()`; `time.time()`-based
    auto-save cadence (`auto_save_if_needed`) is not modelled (it only
    re-runs `save`, which is modelled separately).
  * The external search driver is an oracle `String → Except Unit SearchOutcome`
    (`.error` models the driver raising an exception out of the search call).
  * I/O primitives that the source assumes succeed on the happy path (the
    journal append in `_append_to_raw_backup`, JSON parsing of well-formed
    files) are modelled as succeeding; `save`'s failure behaviour is modelled
    explicitly via `saveFailDuring` because a claim is about it.
-/

namespace AHPRA

/-! ### Constants from `config/settings.py` and `config/professions.py` -/

/-- `ALPHABET = "ABCDEFGHIJKLMNOPQRSTUVWXYZ"` (`config/professions.py`). -/
def ALPHABET : List Char := "ABCDEFGHIJKLMNOPQRSTUVWXYZ".toList

/-- `MAX_RESULTS_PER_PAGE = 100` (`config/settings.py`). -/
def MAX_RESULTS_PER_PAGE : Nat := 100

/-- `MAX_PREFIX_DEPTH = 4` (`config/settings.py`). -/
def MAX_PREFIX_DEPTH : Nat := 4

/-- `MAX_RETRIES = 2` (`config/settings.py`). -/
def MAX_RETRIES : Nat := 2

/-- `HIGH_VOLUME_PREFIXES` (`config/professions.py`, including the duplicated
"TH" entry exactly as in the source). -/
def HIGH_VOLUME_PREFIXES : List String :=
  ["SM", "JO", "WI", "BR", "TA", "AN", "TH", "JA", "WH", "HA",
   "MA", "TH", "GA", "CL", "RO", "LE", "WA", "NG", "CH", "KI"]

/-- `PROFESSIONS` (`config/professions.py`): the 16 registered professions. -/
def PROFESSIONS : List String :=
  ["Aboriginal and Torres Strait Islander Health Practitioner",
   "Chinese Medicine Practitioner", "Chiropractor", "Dental Practitioner",
   "Medical Practitioner", "Medical Radiation Practitioner", "Midwife",
   "Nurse", "Occupational Therapist", "Optometrist", "Osteopath",
   "Paramedic", "Pharmacist", "Physiotherapist", "Podiatrist",
   "Psychologist"]

/-- `STATES` (`config/professions.py`): the 8 states/territories. -/
def STATES : List String :=
  ["Australian Capital Territory", "New South Wales", "Northern Territory",
   "Queensland", "South Australia", "Tasmania", "Victoria",
   "Western Australia"]

/-! ### Data model of `CheckpointManager` (`src/checkpoint.py`) -/

/-- The `self.stats` dictionary of `CheckpointManager.__init__`. -/
structure Stats where
  totalDiscovered : Nat
  totalExtracted : Nat
  errors : Nat
  startTime : Option String
  lastSaveTime : Option String
deriving DecidableEq

/-- In-memory state of a `CheckpointManager` instance
(`src/checkpoint.py`, `__init__`). Python string sets are `Finset String`. -/
structure Checkpoint where
  completedPrefixes : Finset String
  completedCombinations : Finset String
  scrapedRegIds : Finset String
  extractedRegIds : Finset String
  failedRegIds : Finset String
  currentPfx : Option String
  currentPage : Nat
  currentCombination : Option String
  discoveryStartedAt : Option String
  discoveryLastUpdated : Option String
  stats : Stats
deriving DecidableEq

/-- The JSON object written by `CheckpointManager.save` (the `data` dict,
lines 176-185 of `src/checkpoint.py`). Set-valued entries are written as
`list(set)` and re-read with `set(...)`, so they round-trip as `Finset`s. -/
structure CheckpointRecord where
  completedPrefixes : Finset String
  completedCombinations : Finset String
  extractedRegIds : Finset String
  failedRegIds : Finset String
  currentPfx : Option String
  currentPage : Nat
  currentCombination : Option String
  stats : Stats
deriving DecidableEq

/-- The JSON object written by `_save_discovered_ids_json`
(`src/checkpoint.py`, lines 214-219). -/
structure DiscoveredIdsRecord where
  startedAt : Option String
  lastUpdated : Option String
  totalCount : Nat
  regIds : Finset String
deriving DecidableEq

/-- The files a `CheckpointManager` touches. `none` = file absent.
The raw backup file is a list of lines (duplicates and order preserved);
the JSON files are modelled by their parsed contents. -/
structure FS where
  discoveredIdsFile : Option DiscoveredIdsRecord
  legacyRegIdsFile : Option (List String)
  checkpointFile : Option CheckpointRecord
  checkpointTmp : Option CheckpointRecord
  idsTmp : Option DiscoveredIdsRecord
  rawBackupFile : Option (List String)
deriving DecidableEq

/-- Stats of a freshly constructed `CheckpointManager`. -/
def initialStats : Stats :=
  { totalDiscovered := 0, totalExtracted := 0, errors := 0,
    startTime := none, lastSaveTime := none }

/-- In-memory state of a freshly constructed `CheckpointManager`. -/
def initialCheckpoint : Checkpoint :=
  { completedPrefixes := ∅, completedCombinations := ∅, scrapedRegIds := ∅,
    extractedRegIds := ∅, failedRegIds := ∅, currentPfx := none,
    currentPage := 0, currentCombination := none, discoveryStartedAt := none,
    discoveryLastUpdated := none, stats := initialStats }

/-- A filesystem with none of the checkpoint files present. -/
def emptyFS : FS :=
  { discoveredIdsFile := none, legacyRegIdsFile := none, checkpointFile := none,
    checkpointTmp := none, idsTmp := none, rawBackupFile := none }

/-! ### The journal's line format

`_append_to_raw_backup` writes the raw text `reg_id + '\n'`, and
`recover_from_raw_backup` / `_migrate_from_txt` read the file back with
`for line in f` and `line.strip()`. These are modelled character-exactly:
a write extends the file's line list by the newline-separated pieces of the
id, and every read strips each line. -/

/-- The ASCII characters Python's `str.strip()` removes (reg ids are ASCII;
the further Unicode whitespace Python would also strip is not modelled). -/
def isPySpace (c : Char) : Bool :=
  c == ' ' || c == '\t' || c == '\n' || c == '\r' || c == '\x0b' || c == '\x0c'

/-- Python's `str.strip()`: drop leading and trailing whitespace. -/
def pyStrip (s : String) : String :=
  String.mk (((s.data.dropWhile isPySpace).reverse.dropWhile isPySpace).reverse)

/-- Split a character list at newlines (the empty text is one empty line). -/
def linesOfAux : List Char → List Char → List String
  | [], acc => [String.mk acc.reverse]
  | c :: cs, acc =>
      if c = '\n' then String.mk acc.reverse :: linesOfAux cs []
      else linesOfAux cs (c :: acc)

/-- The lines a text occupies in a line-oriented file: appending the text
`id + '\n'` to the journal extends its line list by `linesOf id` (one line
for a newline-free id, several for an id with embedded newlines). -/
def linesOf (s : String) : List String :=
  linesOfAux s.data []

/-! ### Simple `CheckpointManager` operations -/

/-- `mark_prefix_completed` (`src/checkpoint.py`, lines 263-273): adds the
unit key and clears the current position. -/
def markPrefixCompleted (p : String) (cp : Checkpoint) : Checkpoint :=
  { cp with completedPrefixes := insert p cp.completedPrefixes,
            currentPfx := none, currentPage := 0 }

/-- `set_current_position` (`src/checkpoint.py`, lines 275-284). -/
def setCurrentPosition (p : String) (page : Nat) (cp : Checkpoint) : Checkpoint :=
  { cp with currentPfx := some p, currentPage := page }

/-- `save_reg_id` (`src/checkpoint.py`, lines 298-321): membership test on
the in-memory set; if new, add it, bump `total_discovered`, and append the id
to the raw backup file (`_append_to_raw_backup` opens the file in append mode,
creating it if absent, writes the raw text `reg_id + '\n'` and flushes — so
the file's line list grows by `linesOf id`, which is `[id]` exactly when the
id has no embedded newline). Returns `(is_new, new_checkpoint, new_fs)`. -/
def saveRegId (id : String) (cp : Checkpoint) (fs : FS) :
    Bool × Checkpoint × FS :=
  if id ∈ cp.scrapedRegIds then
    (false, cp, fs)
  else
    (true,
     { cp with scrapedRegIds := insert id cp.scrapedRegIds,
               stats := { cp.stats with
                          totalDiscovered := cp.stats.totalDiscovered + 1 } },
     { fs with rawBackupFile := some (fs.rawBackupFile.getD [] ++ linesOf id) })

/-- `increment_errors` (`src/checkpoint.py`, lines 428-430). -/
def incrementErrors (cp : Checkpoint) : Checkpoint :=
  { cp with stats := { cp.stats with errors := cp.stats.errors + 1 } }

/-- `make_combination_key` (`src/checkpoint.py`, lines 510-531). A falsy
suburb (`None` or the empty string) yields the three-part key. -/
def makeCombinationKey (profession state pfx : String)
    (suburb : Option String) : String :=
  match suburb with
  | some sb =>
      if sb = "" then profession ++ "|" ++ state ++ "|" ++ pfx
      else profession ++ "|" ++ state ++ "|" ++ sb ++ "|" ++ pfx
  | none => profession ++ "|" ++ state ++ "|" ++ pfx

/-- `mark_combination_completed` (`src/checkpoint.py`, lines 545-554). -/
def markCombinationCompleted (key : String) (cp : Checkpoint) : Checkpoint :=
  { cp with completedCombinations := insert key cp.completedCombinations,
            currentCombination := none }

/-- `set_current_combination` (`src/checkpoint.py`, lines 556-563). -/
def setCurrentCombination (key : String) (cp : Checkpoint) : Checkpoint :=
  { cp with currentCombination := some key }

/-- The in-memory stats mutation at the top of `save`'s `try:` block
(lines 173-174): `last_save_time` and `total_discovered` are updated before
any file is touched. -/
def statsBeforeWrite (now : String) (cp : Checkpoint) : Checkpoint :=
  { cp with stats :=
      { cp.stats with lastSaveTime := some now, totalDiscovered := cp.scrapedRegIds.card } }

/-- The `data` dict serialized by `save` (lines 176-185). -/
def mkCheckpointRecord (cp : Checkpoint) : CheckpointRecord :=
  { completedPrefixes := cp.completedPrefixes,
    completedCombinations := cp.completedCombinations,
    extractedRegIds := cp.extractedRegIds,
    failedRegIds := cp.failedRegIds,
    currentPfx := cp.currentPfx,
    currentPage := cp.currentPage,
    currentCombination := cp.currentCombination,
    stats := cp.stats }

/-- The in-memory metadata mutation at the top of
`_save_discovered_ids_json` (lines 207-212): refresh `last_updated`, set
`started_at` if unset. -/
def idsMetaUpdate (now : String) (cp : Checkpoint) : Checkpoint :=
  { cp with discoveryLastUpdated := some now,
            discoveryStartedAt := some (cp.discoveryStartedAt.getD now) }

/-- The JSON object serialized by `_save_discovered_ids_json`
(lines 214-219). -/
def mkDiscoveredIdsRecord (cp : Checkpoint) : DiscoveredIdsRecord :=
  { startedAt := cp.discoveryStartedAt,
    lastUpdated := cp.discoveryLastUpdated,
    totalCount := cp.scrapedRegIds.card,
    regIds := cp.scrapedRegIds }

/-- `_save_discovered_ids_json` (lines 205-226) as a whole: metadata update,
write to a temp file, rename over `discovered_ids.json` (the rename removes
the temp file). -/
def saveDiscoveredIdsJson (now : String) (cp : Checkpoint) (fs : FS) :
    Checkpoint × FS :=
  let cpM := idsMetaUpdate now cp
  let idsRec := mkDiscoveredIdsRecord cpM
  (cpM, { fs with discoveredIdsFile := some idsRec, idsTmp := none })

/-- `save` cut at each of its four filesystem steps, for crash reasoning:
`saveSteps k` is the state after the first `k` file-system effects of `save`
have happened (`0` = only the in-memory stats mutation; `1` = snapshot temp
file written; `2` = temp renamed over the snapshot; `3` = ids metadata
updated in memory and ids temp file written; `4` and above = ids temp renamed
over the discovered-ids file, i.e. a completed `save`). -/
def saveSteps (k : Nat) (now : String) (cp : Checkpoint) (fs : FS) :
    Checkpoint × FS :=
  let cpA := statsBeforeWrite now cp
  let chkRec := mkCheckpointRecord cpA
  let fs1 : FS := { fs with checkpointTmp := some chkRec }
  let fs2 : FS := { fs1 with checkpointFile := some chkRec, checkpointTmp := none }
  let cpM := idsMetaUpdate now cpA
  let idsRec := mkDiscoveredIdsRecord cpM
  let fs3 : FS := { fs2 with idsTmp := some idsRec }
  let fs4 : FS := { fs3 with discoveredIdsFile := some idsRec, idsTmp := none }
  match k with
  | 0 => (cpA, fs)
  | 1 => (cpA, fs1)
  | 2 => (cpA, fs2)
  | 3 => (cpM, fs3)
  | _ => (cpM, fs4)

/-- `save` (`src/checkpoint.py`, lines 164-203), happy path: all four file
steps complete and `True` is returned. -/
def save (now : String) (cp : Checkpoint) (fs : FS) :
    Bool × Checkpoint × FS :=
  (true, saveSteps 4 now cp fs)

/-- `save` when file-system step `j` (1-4, as numbered in `saveSteps`)
raises: the `except` clause logs and returns `False`; the in-memory stats
mutation (and, for `j ≥ 3`, the ids metadata mutation, which precedes the
failing write inside `_save_discovered_ids_json`) have already happened. -/
def saveFailDuring (j : Nat) (now : String) (cp : Checkpoint) (fs : FS) :
    Bool × Checkpoint × FS :=
  let cpA := statsBeforeWrite now cp
  let cpM := idsMetaUpdate now cpA
  (false, if 3 ≤ j then cpM else cpA, (saveSteps (j - 1) now cp fs).2)

/-! ### Raw-backup recovery and `load` (`src/checkpoint.py`, 80-162, 349-378) -/

/-- `set(line.strip() for line in f if line.strip())` / the per-line view
of `recover_from_raw_backup`: each line is stripped and the ones that strip
to nothing are dropped. -/
def lineSet (lines : List String) : Finset String :=
  ((lines.map pyStrip).filter (fun l => l ≠ "")).toFinset

/-- The loop of `recover_from_raw_backup` (lines 363-368): fold over the
journal lines, inserting each line that strips to a non-empty id not yet in
the set (`reg_id = line.strip(); if reg_id and reg_id not in ...`) and
counting how many were inserted. -/
def recoverFold : List String → Finset String × Nat → Finset String × Nat
  | [], acc => acc
  | l :: ls, (s, n) =>
      if pyStrip l ≠ "" ∧ pyStrip l ∉ s then
        recoverFold ls (insert (pyStrip l) s, n + 1)
      else recoverFold ls (s, n)

/-- `recover_from_raw_backup` (lines 349-378): replay the journal into the
in-memory set; if anything was recovered, immediately `save()`. Returns
`(recovered_count, checkpoint, fs)`. -/
def recoverFromRawBackup (now : String) (cp : Checkpoint) (fs : FS) :
    Nat × Checkpoint × FS :=
  match fs.rawBackupFile with
  | none => (0, cp, fs)
  | some lines =>
      let acc := recoverFold lines (cp.scrapedRegIds, 0)
      let cp1 := { cp with scrapedRegIds := acc.1 }
      if 0 < acc.2 then
        let sv := save now cp1 fs
        (acc.2, sv.2.1, sv.2.2)
      else (acc.2, cp1, fs)

/-- The discovered-ids loading phase of `load` (lines 87-100):
`_load_discovered_ids_json` replaces the in-memory set with the file
contents; with no JSON file, `_migrate_from_txt` reads the legacy flat file
(stripping lines, dropping empties), stamps the discovery timestamps with
`now` and writes the new JSON file; with neither file, nothing happens. -/
def loadIdsPhase (now : String) (cp : Checkpoint) (fs : FS) :
    Checkpoint × FS :=
  match fs.discoveredIdsFile with
  | some d =>
      ({ cp with scrapedRegIds := d.regIds,
                 discoveryStartedAt := d.startedAt,
                 discoveryLastUpdated := d.lastUpdated }, fs)
  | none =>
      match fs.legacyRegIdsFile with
      | some lines =>
          let cpm := { cp with scrapedRegIds := lineSet lines,
                               discoveryStartedAt := some now,
                               discoveryLastUpdated := some now }
          saveDiscoveredIdsJson now cpm fs
      | none => (cp, fs)

/-- `load` (`src/checkpoint.py`, lines 80-138): discovered-ids phase, then
`recover_from_raw_backup`, then the checkpoint snapshot file (if present)
repopulates the completed/extracted/failed sets, position and stats, with
`total_discovered` recomputed from the actual set size. Returns whether
prior state existed, exactly as the source computes it. -/
def load (now : String) (cp : Checkpoint) (fs : FS) :
    Bool × Checkpoint × FS :=
  let p1 := loadIdsPhase now cp fs
  let rec1 := recoverFromRawBackup now p1.1 p1.2
  let cp2 := rec1.2.1
  let fs2 := rec1.2.2
  match fs2.checkpointFile with
  | none =>
      (decide (0 < cp2.scrapedRegIds.card),
       { cp2 with stats := { cp2.stats with
                             totalDiscovered := cp2.scrapedRegIds.card } },
       fs2)
  | some ck =>
      (true,
       { cp2 with completedPrefixes := ck.completedPrefixes,
                  completedCombinations := ck.completedCombinations,
                  extractedRegIds := ck.extractedRegIds,
                  failedRegIds := ck.failedRegIds,
                  currentPfx := ck.currentPfx,
                  currentPage := ck.currentPage,
                  currentCombination := ck.currentCombination,
                  stats := { ck.stats with
                             totalDiscovered := cp2.scrapedRegIds.card } },
       fs2)

/-! ### Search strategies (`src/search.py`) -/

/-- `PrefixGenerator.get_children` (`src/search.py`, lines 81-93): the 26
one-character-longer children of a unit, empty at or beyond `max_depth`.
Python's `prefix + char` is `String.push`. -/
def getChildren (maxDepth : Nat) (pfx : String) : List String :=
  if maxDepth ≤ pfx.length then []
  else ALPHABET.map (fun c => pfx.push c)

/-- `PrefixGenerator.should_recurse` (`src/search.py`, lines 95-118):
never at `max_depth`; otherwise on `result_count >= MAX_RESULTS_PER_PAGE`
or membership in `HIGH_VOLUME_PREFIXES`. -/
def shouldRecurse (maxDepth : Nat) (pfx : String) (resultCount : Nat) : Bool :=
  if maxDepth ≤ pfx.length then false
  else if MAX_RESULTS_PER_PAGE ≤ resultCount then true
  else if pfx ∈ HIGH_VOLUME_PREFIXES then true
  else false

/-- `PrefixGenerator._generate_at_depth` (`src/search.py`, lines 63-79),
with the source's `depth - len(current)` countdown made the structural
recursion argument: it extends `current` by every alphabet character until
the target depth is reached. -/
def genAtDepthAux : Nat → String → List String
  | 0, current => [current]
  | Nat.succ d, current => (ALPHABET.map (fun c => genAtDepthAux d (current.push c))).flatten

/-- `PrefixGenerator.generate_prefixes_at_depth` (`src/search.py`,
lines 51-61). -/
def genAtDepth (depth : Nat) : List String :=
  genAtDepthAux depth ""

/-- `RecursivePrefixSearch.get_search_plan` (`src/search.py`, lines 172-191):
the single letters not yet completed, in alphabet order. -/
def getSearchPlan (completed : Finset String) : List String :=
  (ALPHABET.map (fun c => String.mk [c])).filter (fun p => p ∉ completed)

/-- `RecursivePrefixSearch.expand_prefix` (`src/search.py`, lines 193-215):
empty unless `should_recurse`; otherwise the children minus the completed
set, preserving alphabetical order. (`should_recurse` compares against the
module constant `MAX_RESULTS_PER_PAGE`; the `max_results_threshold`
constructor argument is never consulted by `expand_prefix`.) -/
def expandPfx (maxDepth : Nat) (pfx : String) (resultCount : Nat)
    (completed : Finset String) : List String :=
  if shouldRecurse maxDepth pfx resultCount then
    (getChildren maxDepth pfx).filter (fun p => p ∉ completed)
  else []

/-- Attribute state of a `MultiDimensionalSearch` instance (`src/search.py`,
lines 402-430). `suburbs` is the `MAJOR_SUBURBS` dict, modelled as an
association list from state name to suburb list. -/
structure MultiDimensionalSearch where
  professions : List String
  states : List String
  suburbs : List (String × List String)
  includeSuburbs : Bool
  highVolumeStates : List String
  testPfx : Option String

/-- `self.suburbs.get(state, [])`. -/
def suburbsFor (md : MultiDimensionalSearch) (state : String) : List String :=
  (md.suburbs.lookup state).getD []

/-- The local `prefixes` of `get_all_combinations` (`src/search.py`,
lines 448-453): the single test unit in test mode, otherwise all
depth-one prefixes. -/
def mdPrefixes (md : MultiDimensionalSearch) : List String :=
  match md.testPfx with
  | some t => [t]
  | none => genAtDepth 1

/-- `MultiDimensionalSearch.get_all_combinations` (`src/search.py`,
lines 432-474): for each profession, for each state, first the plain
profession-state-prefix units whose key is not completed, then — only with
suburb mode on and the state in the high-volume list — the suburb units
whose key is not completed. Keys are built with the same `"|"`-joined
f-strings as the source. -/
def getAllCombinations (md : MultiDimensionalSearch)
    (completed : Finset String) :
    List (String × String × Option String × String) :=
  md.professions.flatMap (fun profession =>
    md.states.flatMap (fun state =>
      (mdPrefixes md).filterMap (fun pfx =>
        if profession ++ "|" ++ state ++ "|" ++ pfx ∈ completed then none
        else some (profession, state, (none : Option String), pfx))
      ++ (if md.includeSuburbs ∧ state ∈ md.highVolumeStates then
            (suburbsFor md state).flatMap (fun suburb =>
              (mdPrefixes md).filterMap (fun pfx =>
                if profession ++ "|" ++ state ++ "|" ++ suburb ++ "|" ++ pfx
                     ∈ completed then none
                else some (profession, state, some suburb, pfx)))
          else [])))

/-! ### The extraction-loop cooldown controller (`phase2_extract.py`) -/

/-- `SHORT_COOLDOWN_THRESHOLD = 3` (`phase2_extract.py`, line 208). -/
def SHORT_COOLDOWN_THRESHOLD : Nat := 3

/-- `SHORT_COOLDOWN_DURATION = 60` (`phase2_extract.py`, line 209). -/
def SHORT_COOLDOWN_DURATION : Nat := 60

/-- `LONG_COOLDOWN_THRESHOLD = 3` (`phase2_extract.py`, line 210). -/
def LONG_COOLDOWN_THRESHOLD : Nat := 3

/-- `LONG_COOLDOWN_DURATION = 300` (`phase2_extract.py`, line 211). -/
def LONG_COOLDOWN_DURATION : Nat := 300

/-- The throttle counters of the extraction loop (`phase2_extract.py`,
lines 199-200): `consecutive_failures` and `total_failures_in_window`. -/
structure ThrottleState where
  consecutiveFailures : Nat
  failuresInWindow : Nat
deriving DecidableEq

/-- What the failure branches of the loop body did: which cooldown tiers
fired, whether the API session was reset (only the long tier resets it),
and the total seconds slept. -/
structure CooldownReport where
  shortFired : Bool
  longFired : Bool
  sessionReset : Bool
  sleptSeconds : Nat
deriving DecidableEq

/-- One success/failure report of the extraction loop (`phase2_extract.py`,
lines 231-247 for success, 248-286 for failure): on success both counters
reset to zero; on failure both counters are bumped, then the short tier
fires at `SHORT_COOLDOWN_THRESHOLD` failures in the window (sleeping 60s and
zeroing the window counter), then the long tier fires at
`LONG_COOLDOWN_THRESHOLD` consecutive failures (sleeping 300s, resetting the
session, and zeroing the consecutive counter). -/
def reportResult (success : Bool) (s : ThrottleState) :
    ThrottleState × CooldownReport :=
  if success then
    ({ consecutiveFailures := 0, failuresInWindow := 0 },
     { shortFired := false, longFired := false, sessionReset := false,
       sleptSeconds := 0 })
  else
    let c := s.consecutiveFailures + 1
    let w := s.failuresInWindow + 1
    let short := SHORT_COOLDOWN_THRESHOLD ≤ w
    let w2 := if short then 0 else w
    let long := LONG_COOLDOWN_THRESHOLD ≤ c
    let c2 := if long then 0 else c
    ({ consecutiveFailures := c2, failuresInWindow := w2 },
     { shortFired := short, longFired := long, sessionReset := long,
       sleptSeconds := (if short then SHORT_COOLDOWN_DURATION else 0)
                         + (if long then LONG_COOLDOWN_DURATION else 0) })

/-! ### The discovery loops (`src/discovery.py`) -/

/-- What one external search observes: the result count reported by
`_get_result_count` and the reg ids enumerated from the result rows
(`_collect_practitioners_from_page` over all pages). -/
structure SearchOutcome where
  count : Nat
  ids : List String

/-- The external search driver: `.error` models the search raising an
exception out to the loop's `except` clause. -/
def SearchOracle : Type := String → Except Unit SearchOutcome

/-- The `self._retry_counts` dict (`src/discovery.py`, line 160), as an
association list where the most recent binding for a key shadows older
ones. -/
def retryCountOf : List (String × Nat) → String → Nat
  | [], _ => 0
  | e :: l, k => if e.1 = k then e.2 else retryCountOf l k

/-- The id-recording part of a successful `_search_prefix` /
`_search_combination`: each observed row id goes through
`checkpoint.save_reg_id` in order (`src/discovery.py`, lines 681-690). -/
def collectIds : List String → Checkpoint → FS → Checkpoint × FS
  | [], cp, fs => (cp, fs)
  | id :: ids, cp, fs =>
      let r := saveRegId id cp fs
      collectIds ids r.2.1 r.2.2

/-- State of `_run_prefix_discovery` (`src/discovery.py`, lines 215-285):
the work queue, the retry dict, the checkpoint manager and the filesystem,
plus a ghost counter of how many external searches were attempted (used
only in theorem statements, never read by the transition). -/
structure DiscState where
  queue : List String
  retryCounts : List (String × Nat)
  searches : Nat
  cp : Checkpoint
  fs : FS

/-- The body of the `while self._search_queue:` loop of
`_run_prefix_discovery` (`src/discovery.py`, lines 233-276), fuelled:

* dequeue; skip units already completed (line 237);
* on a successful search: `_search_prefix` sets the current position and
  records the observed ids, then `handle_search_result` (adaptive mode)
  computes `expand_prefix`; non-empty children are pushed onto the queue
  head in order, otherwise the unit is marked completed;
* on an exception: `increment_errors`, bump the unit's retry count, and
  re-enqueue at the tail while the count is below `MAX_RETRIES`, else drop
  the unit ("Skipping prefix ... after N failed attempts").

The time-based `auto_save_if_needed` and the snapshot writes inside
`_collect_practitioners_from_page` are not modelled (they only re-run
`save`, which touches neither the sets nor the queue). -/
def runPrefixLoop (search : SearchOracle) (maxDepth : Nat) :
    Nat → DiscState → DiscState
  | 0, s => s
  | Nat.succ fuel, s =>
      match s.queue with
      | [] => s
      | p :: rest =>
          if p ∈ s.cp.completedPrefixes then
            runPrefixLoop search maxDepth fuel { s with queue := rest }
          else
            match search p with
            | Except.ok out =>
                let c1 := setCurrentPosition p 0 s.cp
                let col := collectIds out.ids c1 s.fs
                let children := expandPfx maxDepth p out.count col.1.completedPrefixes
                match children with
                | [] =>
                    runPrefixLoop search maxDepth fuel
                      { queue := rest, retryCounts := s.retryCounts,
                        searches := s.searches + 1,
                        cp := markPrefixCompleted p col.1, fs := col.2 }
                | _ =>
                    runPrefixLoop search maxDepth fuel
                      { queue := children ++ rest, retryCounts := s.retryCounts,
                        searches := s.searches + 1, cp := col.1, fs := col.2 }
            | Except.error _ =>
                let cpE := incrementErrors s.cp
                let rc := retryCountOf s.retryCounts p + 1
                let queue2 := if rc < MAX_RETRIES then rest ++ [p] else rest
                runPrefixLoop search maxDepth fuel
                  { queue := queue2, retryCounts := (p, rc) :: s.retryCounts,
                    searches := s.searches + 1, cp := cpE, fs := s.fs }

/-- Queue initialisation of `_run_prefix_discovery` (lines 218-228):
the adaptive search plan, then — if a `current_prefix` was saved — that
unit is removed from the queue (if present) and unconditionally pushed to
the front. -/
def initQueue (cp : Checkpoint) : List String :=
  let plan := getSearchPlan cp.completedPrefixes
  match cp.currentPfx with
  | none => plan
  | some c => c :: plan.erase c

/-- `_run_prefix_discovery` (lines 215-285) in adaptive mode: build the
queue, drain it, then the final `save` (line 279). -/
def runPrefixDiscovery (search : SearchOracle) (maxDepth fuel : Nat)
    (now : String) (cp : Checkpoint) (fs : FS) : DiscState :=
  let s := runPrefixLoop search maxDepth fuel
             { queue := initQueue cp, retryCounts := [], searches := 0,
               cp := cp, fs := fs }
  let sv := save now s.cp s.fs
  { s with cp := sv.2.1, fs := sv.2.2 }

/-- `run_discovery(resume=True)` in prefix mode (lines 185-213):
`checkpoint.load()` followed by `_run_prefix_discovery`. -/
def runDiscoveryResume (search : SearchOracle) (maxDepth fuel : Nat)
    (now : String) (cp : Checkpoint) (fs : FS) : DiscState :=
  let ld := load now cp fs
  runPrefixDiscovery search maxDepth fuel now ld.2.1 ld.2.2

/-- A multi-dimensional search unit as dequeued by
`_run_multi_dimensional_discovery`: `(profession, state, suburb, prefix)`. -/
def ComboUnit : Type := String × String × Option String × String

/-- The combination key the loop builds for a dequeued unit
(`src/discovery.py`, line 304): note the argument order
`make_combination_key(profession, state, prefix, suburb)`. -/
def comboKeyOf (u : ComboUnit) : String :=
  makeCombinationKey u.1 u.2.1 u.2.2.2 u.2.2.1

/-- State of `_run_multi_dimensional_discovery`
(`src/discovery.py`, lines 287-364). -/
structure ComboState where
  queue : List ComboUnit
  retryCounts : List (String × Nat)
  searches : Nat
  cp : Checkpoint
  fs : FS

/-- The external driver for `_search_combination`, keyed by the full unit. -/
def ComboOracle : Type := ComboUnit → Except Unit SearchOutcome

/-- The body of the `while self._combination_queue:` loop of
`_run_multi_dimensional_discovery` (lines 300-355), fuelled:

* dequeue; skip units whose key is already completed (line 307);
* on success: `set_current_combination`, `_search_combination` records the
  observed ids, `mark_combination_completed`, and a `save` after every unit
  (line 332);
* on an exception: `increment_errors`, bump the retry count for the key,
  re-enqueue at the tail below `MAX_RETRIES`, else drop the unit. -/
def runComboLoop (search : ComboOracle) (now : String) :
    Nat → ComboState → ComboState
  | 0, s => s
  | Nat.succ fuel, s =>
      match s.queue with
      | [] => s
      | u :: rest =>
          let key := comboKeyOf u
          if key ∈ s.cp.completedCombinations then
            runComboLoop search now fuel { s with queue := rest }
          else
            match search u with
            | Except.ok out =>
                let c1 := setCurrentCombination key s.cp
                let col := collectIds out.ids c1 s.fs
                let c2 := markCombinationCompleted key col.1
                let sv := save now c2 col.2
                runComboLoop search now fuel
                  { queue := rest, retryCounts := s.retryCounts,
                    searches := s.searches + 1, cp := sv.2.1, fs := sv.2.2 }
            | Except.error _ =>
                let cpE := incrementErrors s.cp
                let rc := retryCountOf s.retryCounts key + 1
                let queue2 := if rc < MAX_RETRIES then rest ++ [u] else rest
                runComboLoop search now fuel
                  { queue := queue2, retryCounts := (key, rc) :: s.retryCounts,
                    searches := s.searches + 1, cp := cpE, fs := s.fs }

/-! ### Sequences of `CheckpointManager` operations -/

/-- The stripped non-empty lines of the raw backup journal. -/
def rawSet (fs : FS) : Finset String :=
  lineSet (fs.rawBackupFile.getD [])

/-- A search driver that always raises. -/
def failOracle : SearchOracle := fun _ => Except.error ()

/-- A combination search driver that always raises. -/
def failComboOracle : ComboOracle := fun _ => Except.error ()

/-- The prefix loop run on a single always-failing unit from a fresh
checkpoint, with enough fuel to drain the queue. -/
def c1Run : DiscState :=
  runPrefixLoop failOracle MAX_PREFIX_DEPTH 3
    { queue := ["A"], retryCounts := [], searches := 0,
      cp := initialCheckpoint, fs := emptyFS }

/-- A deterministic driver for the resumption scenario: searching `"A"`
reports 120 results containing the single id `"R1"`; every other unit
reports zero results. -/
def c8Oracle : SearchOracle := fun p =>
  if p = "A" then Except.ok { count := 120, ids := ["R1"] }
  else Except.ok { count := 0, ids := [] }

/-- First adaptive discovery run (`max_depth = 2`) from a fresh checkpoint:
`"A"` expands into its 26 children, everything reachable is processed. -/
def c8FirstRun : DiscState :=
  runDiscoveryResume c8Oracle 2 60 "t1" initialCheckpoint emptyFS

/-- Second run with `resume=true` against the checkpoint left by the first
run (nothing removed in between). -/
def c8SecondRun : DiscState :=
  runDiscoveryResume c8Oracle 2 5 "t2" c8FirstRun.cp c8FirstRun.fs

/-- A `MultiDimensionalSearch` whose dimension attributes are set to
2 professions × 2 states with a single test prefix and suburb mode off
(the suburb table holds 3 suburbs for state `"S2"`). -/
def mdNoSuburbs : MultiDimensionalSearch :=
  { professions := ["P1", "P2"], states := ["S1", "S2"],
    suburbs := [("S2", ["U1", "U2", "U3"])], includeSuburbs := false,
    highVolumeStates := ["New South Wales", "Victoria", "Queensland"],
    testPfx := some "A" }

/-- The same strategy with suburb mode enabled for exactly one of the two
states (`"S2"`, which has 3 configured suburbs). -/
def mdWithSuburbs : MultiDimensionalSearch :=
  { mdNoSuburbs with includeSuburbs := true, highVolumeStates := ["S2"] }

/-- A discovered-ids file holding the two ids `"a"` and `"b"`. -/
def c3rec : DiscoveredIdsRecord :=
  { startedAt := some "s0", lastUpdated := some "s1", totalCount := 2,
    regIds := {"a", "b"} }

/-- A filesystem whose discovered-ids file holds `{"a","b"}` while the raw
backup journal additionally holds the unsynced id `"c"`. -/
def c3fs : FS :=
  { emptyFS with discoveredIdsFile := some c3rec,
                 rawBackupFile := some ["a", "b", "c"] }

/-- A checkpoint whose stats carry an earlier `last_save_time`. -/
def c6cp : Checkpoint :=
  { initialCheckpoint with stats := { initialStats with lastSaveTime := some "t0" } }

/-! ### Theorems -/

/-- Claim C5: `save` writes the checkpoint record to a temporary file and
then renames it over the target path, so an execution interrupted after the
temp write but before the rename leaves the previously persisted snapshot
file unchanged; the discovered-ID file is written the same way immediately
after (its rename is the fourth and last file step, and until then the
discovered-ids file is untouched). -/
theorem c5_atomic_snapshot :
    ∀ (now : String) (cp : Checkpoint) (fs : FS),
      (saveSteps 1 now cp fs).2.checkpointFile = fs.checkpointFile
      ∧ (saveSteps 1 now cp fs).2.checkpointTmp
          = some (mkCheckpointRecord (statsBeforeWrite now cp))
      ∧ (saveSteps 2 now cp fs).2.checkpointFile
          = some (mkCheckpointRecord (statsBeforeWrite now cp))
      ∧ (saveSteps 2 now cp fs).2.discoveredIdsFile = fs.discoveredIdsFile
      ∧ (saveSteps 3 now cp fs).2.discoveredIdsFile = fs.discoveredIdsFile
      ∧ save now cp fs = (true, saveSteps 4 now cp fs) := by
  intro now cp fs
  exact ⟨rfl, rfl, rfl, rfl, rfl, rfl⟩

/-- Claim C5, witness: the atomicity facts evaluated at a concrete state. -/
theorem c5_atomic_snapshot_witness :
    (saveSteps 1 "t1" initialCheckpoint emptyFS).2.checkpointFile
      = emptyFS.checkpointFile :=
  (c5_atomic_snapshot "t1" initialCheckpoint emptyFS).1

/-- Claim C6, counterexample: a failed snapshot write does *not* leave the
statistics unmodified — `save` updates `stats['last_save_time']` (and
`total_discovered`) before attempting the write, so after a failure during
the first file step the stats differ from their pre-call value even though
`False` is returned. -/
theorem c6_counterexample :
    (saveFailDuring 1 "t1" c6cp emptyFS).1 = false
    ∧ (saveFailDuring 1 "t1" c6cp emptyFS).2.1.stats ≠ c6cp.stats := by
  constructor
  · rfl
  · decide

/-- Claim C6, amended: whenever any file-system step of `save` fails, `save`
returns `False` and all progress state — both completed sets, the
discovered/extracted/failed id sets, the current position, and the
errors/extracted/start-time statistics — is unmodified; only the
`last_save_time` and `total_discovered` stats fields (and, from the third
step on, the discovery timestamps) may have been refreshed. A failed save
never clears in-memory progress. -/
theorem c6_failed_save_preserves_progress :
    ∀ (j : Nat) (now : String) (cp : Checkpoint) (fs : FS),
      (saveFailDuring j now cp fs).1 = false
      ∧ (saveFailDuring j now cp fs).2.1.completedPrefixes = cp.completedPrefixes
      ∧ (saveFailDuring j now cp fs).2.1.completedCombinations
          = cp.completedCombinations
      ∧ (saveFailDuring j now cp fs).2.1.scrapedRegIds = cp.scrapedRegIds
      ∧ (saveFailDuring j now cp fs).2.1.extractedRegIds = cp.extractedRegIds
      ∧ (saveFailDuring j now cp fs).2.1.failedRegIds = cp.failedRegIds
      ∧ (saveFailDuring j now cp fs).2.1.currentPfx = cp.currentPfx
      ∧ (saveFailDuring j now cp fs).2.1.currentPage = cp.currentPage
      ∧ (saveFailDuring j now cp fs).2.1.currentCombination = cp.currentCombination
      ∧ (saveFailDuring j now cp fs).2.1.stats.errors = cp.stats.errors
      ∧ (saveFailDuring j now cp fs).2.1.stats.totalExtracted
          = cp.stats.totalExtracted
      ∧ (saveFailDuring j now cp fs).2.1.stats.startTime = cp.stats.startTime := by
  intro j now cp fs
  unfold saveFailDuring
  by_cases h : 3 ≤ j <;>
    simp [h, statsBeforeWrite, idsMetaUpdate]

/-- Claim C7: adaptive expansion returns exactly the 26 one-character-longer
children in alphabetical order minus the completed set precisely when the
result count reaches the 100-result page limit or the unit is in the
high-volume allow-list, and the unit is below `max_depth`; otherwise it is
empty. Concretely, `expand_prefix("A", 120, {})` is `["AA".."AZ"]` and
`expand_prefix("B", 5, {})` is `[]`. -/
theorem c7_adaptive_expansion :
    (∀ (maxDepth : Nat) (pfx : String) (c : Nat) (C : Finset String),
      expandPfx maxDepth pfx c C =
        if (MAX_RESULTS_PER_PAGE ≤ c ∨ pfx ∈ HIGH_VOLUME_PREFIXES)
             ∧ pfx.length < maxDepth then
          (ALPHABET.map (fun ch => pfx.push ch)).filter (fun q => q ∉ C)
        else [])
    ∧ expandPfx MAX_PREFIX_DEPTH "A" 120 (∅ : Finset String) =
        ["AA", "AB", "AC", "AD", "AE", "AF", "AG", "AH", "AI", "AJ", "AK",
         "AL", "AM", "AN", "AO", "AP", "AQ", "AR", "AS", "AT", "AU", "AV",
         "AW", "AX", "AY", "AZ"]
    ∧ expandPfx MAX_PREFIX_DEPTH "B" 5 (∅ : Finset String) = [] := by
  refine ⟨?_, by decide, by decide⟩
  intro maxDepth pfx c C
  by_cases h1 : maxDepth ≤ pfx.length
  · have h1' : ¬ pfx.length < maxDepth := by omega
    simp [expandPfx, shouldRecurse, h1, h1']
  · have h1' : pfx.length < maxDepth := by omega
    by_cases h2 : MAX_RESULTS_PER_PAGE ≤ c
    · simp [expandPfx, shouldRecurse, getChildren, h1, h1', h2]
    · by_cases h3 : pfx ∈ HIGH_VOLUME_PREFIXES
      · simp [expandPfx, shouldRecurse, getChildren, h1, h1', h2, h3]
      · simp [expandPfx, shouldRecurse, h1, h1', h2, h3]

/-- Claim C10: three consecutive `report(False)` calls make the long
cooldown tier (threshold 3, 300 s, with a session reset) fire on the third
call and reset the consecutive-failures counter to zero, and a subsequent
`report(True)` resets both failure counters to zero. -/
theorem c10_backoff_escalation :
    (let s0 : ThrottleState := { consecutiveFailures := 0, failuresInWindow := 0 }
     let f1 := reportResult false s0
     let f2 := reportResult false f1.1
     let f3 := reportResult false f2.1
     f1.2.longFired = false ∧ f2.2.longFired = false
       ∧ f3.2.longFired = true ∧ f3.2.sessionReset = true
       ∧ f3.2.sleptSeconds = SHORT_COOLDOWN_DURATION + LONG_COOLDOWN_DURATION
       ∧ f3.1.consecutiveFailures = 0)
    ∧ LONG_COOLDOWN_THRESHOLD = 3 ∧ LONG_COOLDOWN_DURATION = 300
    ∧ ∀ s : ThrottleState,
        (reportResult true s).1 =
          { consecutiveFailures := 0, failuresInWindow := 0 } := by
  refine ⟨by decide, rfl, rfl, fun s => rfl⟩

/-- Claim C4: `save_reg_id` returns `True` exactly when the id is new; in
that case the id is added to the in-memory set, the discovered counter is
bumped by exactly one, and the text `reg_id + '\n'` has been appended (and
flushed) to the raw backup journal in the state returned by the call — its
lines grow by `linesOf id`, which is the id as one line whenever it has no
embedded newline — with the snapshot files untouched; when it returns
`False` nothing at all changes. -/
theorem c4_save_reg_id_contract :
    ∀ (id : String) (cp : Checkpoint) (fs : FS),
      ((saveRegId id cp fs).1 = true ↔ id ∉ cp.scrapedRegIds)
      ∧ (id ∉ cp.scrapedRegIds →
          (saveRegId id cp fs).2.1.scrapedRegIds = insert id cp.scrapedRegIds
          ∧ (saveRegId id cp fs).2.1.stats.totalDiscovered
              = cp.stats.totalDiscovered + 1
          ∧ (saveRegId id cp fs).2.2.rawBackupFile
              = some (fs.rawBackupFile.getD [] ++ linesOf id)
          ∧ (saveRegId id cp fs).2.2.discoveredIdsFile = fs.discoveredIdsFile
          ∧ (saveRegId id cp fs).2.2.checkpointFile = fs.checkpointFile)
      ∧ (id ∈ cp.scrapedRegIds →
          (saveRegId id cp fs).2.1 = cp ∧ (saveRegId id cp fs).2.2 = fs) := by
  intro id cp fs
  by_cases h : id ∈ cp.scrapedRegIds <;>
    simp [saveRegId, h]

/-- Claim C4, witness: the contract applied to a fresh checkpoint and a new
id. -/
theorem c4_save_reg_id_contract_witness :
    (saveRegId "X" initialCheckpoint emptyFS).2.1.scrapedRegIds
      = insert "X" initialCheckpoint.scrapedRegIds :=
  ((c4_save_reg_id_contract "X" initialCheckpoint emptyFS).2.1 (by decide)).1

/-- Claim C9, counterexample: with 2 professions × 2 states × 1 prefix and
suburb mode enabled for one of the two states (3 configured suburbs),
`get_all_combinations` yields 10 units — 2 base + 3 suburb units per
profession — not 7 (nor 7 scaled to 14 across both professions) as the
claim computes. -/
theorem c9_counterexample :
    (getAllCombinations mdWithSuburbs ∅).length = 10
    ∧ ¬ (getAllCombinations mdWithSuburbs ∅).length = 7
    ∧ ¬ (getAllCombinations mdWithSuburbs ∅).length = 14 := by
  decide

/-- Claim C9, amended: for 2 professions × 2 states × 1 prefix the
enumeration over an empty completed set yields exactly 4 units with suburb
mode disabled; enabling suburb mode for exactly one of the two states with
3 configured suburbs yields 2 base + 1×3 suburb = 5 units per profession,
i.e. 10 units in total across both professions. -/
theorem c9_multidimensional_cardinality :
    (getAllCombinations mdNoSuburbs ∅).length = 4
    ∧ (getAllCombinations mdWithSuburbs ∅).length = 10
    ∧ ((getAllCombinations mdWithSuburbs ∅).filter (fun u => u.1 == "P1")).length = 5
    ∧ ((getAllCombinations mdWithSuburbs ∅).filter (fun u => u.1 == "P2")).length = 5 := by
  decide

/-- The prefix loop is inert on an empty queue. -/
theorem runPrefixLoop_nil (search : SearchOracle) (maxDepth fuel : Nat)
    (s : DiscState) (h : s.queue = []) :
    runPrefixLoop search maxDepth fuel s = s := by
  cases fuel with
  | zero => rfl
  | succ n =>
      simp only [runPrefixLoop]
      rw [h]

/-- One iteration of the prefix loop on a unit whose search raises:
the error counter is bumped, the retry count for the unit is bumped, and
the unit is re-enqueued at the tail only while the count is below
`MAX_RETRIES`. -/
theorem runPrefixLoop_error_step (search : SearchOracle)
    (maxDepth fuel : Nat) (p : String) (rest : List String)
    (rc : List (String × Nat)) (k : Nat) (cp : Checkpoint) (fs : FS)
    (hm : p ∉ cp.completedPrefixes) (hs : search p = Except.error ()) :
    runPrefixLoop search maxDepth (Nat.succ fuel)
      { queue := p :: rest, retryCounts := rc, searches := k, cp := cp, fs := fs }
    = runPrefixLoop search maxDepth fuel
      { queue := if retryCountOf rc p + 1 < MAX_RETRIES then rest ++ [p] else rest,
        retryCounts := (p, retryCountOf rc p + 1) :: rc,
        searches := k + 1, cp := incrementErrors cp, fs := fs } := by
  simp only [runPrefixLoop]
  simp [hm, hs]

/-- The combination loop is inert on an empty queue. -/
theorem runComboLoop_nil (search : ComboOracle) (now : String) (fuel : Nat)
    (s : ComboState) (h : s.queue = []) :
    runComboLoop search now fuel s = s := by
  cases fuel with
  | zero => rfl
  | succ n =>
      simp only [runComboLoop]
      rw [h]

/-- One iteration of the combination loop on a unit whose search raises. -/
theorem runComboLoop_error_step (search : ComboOracle) (now : String)
    (fuel : Nat) (u : ComboUnit) (rest : List ComboUnit)
    (rc : List (String × Nat)) (k : Nat) (cp : Checkpoint) (fs : FS)
    (hm : comboKeyOf u ∉ cp.completedCombinations)
    (hs : search u = Except.error ()) :
    runComboLoop search now (Nat.succ fuel)
      { queue := u :: rest, retryCounts := rc, searches := k, cp := cp, fs := fs }
    = runComboLoop search now fuel
      { queue := if retryCountOf rc (comboKeyOf u) + 1 < MAX_RETRIES
                 then rest ++ [u] else rest,
        retryCounts := (comboKeyOf u, retryCountOf rc (comboKeyOf u) + 1) :: rc,
        searches := k + 1, cp := incrementErrors cp, fs := fs } := by
  simp only [runComboLoop]
  simp [hm, hs]

/-- Looking up the most recent binding. -/
theorem retryCountOf_cons_self (p : String) (v : Nat)
    (l : List (String × Nat)) : retryCountOf ((p, v) :: l) p = v := by
  simp [retryCountOf]

/-- Claim C1, counterexample: running the prefix discovery loop on the
single unit `"A"` with a driver that always raises drains the queue after
`MAX_RETRIES` failed dequeues and increments the error counter exactly
`MAX_RETRIES` times — but `"A"` is *not* in the completed-prefix set
afterwards: the source merely logs "Skipping prefix ... after N failed
attempts" and drops it, it never force-marks the unit complete. -/
theorem c1_counterexample :
    c1Run.queue = []
    ∧ retryCountOf c1Run.retryCounts "A" = MAX_RETRIES
    ∧ c1Run.cp.stats.errors = MAX_RETRIES
    ∧ "A" ∉ c1Run.cp.completedPrefixes := by
  decide

/-- Claim C1, amended: a unit whose external search raises on `MAX_RETRIES`
distinct dequeues is abandoned by being dropped from the queue *without*
being marked complete — the completed-unit set is exactly what it was — and
the global error counter is incremented exactly `MAX_RETRIES` times for
that unit's failures (no double counting: its retry count is exactly
`MAX_RETRIES`). This holds for the prefix loop and for the standard
multi-dimensional combination loop alike. -/
theorem c1_abandonment_accounting :
    (∀ (search : SearchOracle) (maxDepth n : Nat) (p : String)
       (cp : Checkpoint) (fs : FS),
      search p = Except.error () → p ∉ cp.completedPrefixes →
      (runPrefixLoop search maxDepth (n + 3)
        { queue := [p], retryCounts := [], searches := 0,
          cp := cp, fs := fs }).queue = []
      ∧ (runPrefixLoop search maxDepth (n + 3)
          { queue := [p], retryCounts := [], searches := 0,
            cp := cp, fs := fs }).cp.completedPrefixes = cp.completedPrefixes
      ∧ (runPrefixLoop search maxDepth (n + 3)
          { queue := [p], retryCounts := [], searches := 0,
            cp := cp, fs := fs }).cp.stats.errors
          = cp.stats.errors + MAX_RETRIES
      ∧ retryCountOf (runPrefixLoop search maxDepth (n + 3)
          { queue := [p], retryCounts := [], searches := 0,
            cp := cp, fs := fs }).retryCounts p = MAX_RETRIES
      ∧ (runPrefixLoop search maxDepth (n + 3)
          { queue := [p], retryCounts := [], searches := 0,
            cp := cp, fs := fs }).cp.scrapedRegIds = cp.scrapedRegIds)
    ∧ (∀ (search : ComboOracle) (now : String) (n : Nat) (u : ComboUnit)
         (cp : Checkpoint) (fs : FS),
      search u = Except.error () → comboKeyOf u ∉ cp.completedCombinations →
      (runComboLoop search now (n + 3)
        { queue := [u], retryCounts := [], searches := 0,
          cp := cp, fs := fs }).queue = []
      ∧ (runComboLoop search now (n + 3)
          { queue := [u], retryCounts := [], searches := 0,
            cp := cp, fs := fs }).cp.completedCombinations
          = cp.completedCombinations
      ∧ (runComboLoop search now (n + 3)
          { queue := [u], retryCounts := [], searches := 0,
            cp := cp, fs := fs }).cp.stats.errors
          = cp.stats.errors + MAX_RETRIES
      ∧ retryCountOf (runComboLoop search now (n + 3)
          { queue := [u], retryCounts := [], searches := 0,
            cp := cp, fs := fs }).retryCounts (comboKeyOf u) = MAX_RETRIES) := by
  constructor
  · intro search maxDepth n p cp fs hs hm
    have e1 : runPrefixLoop search maxDepth (n + 3)
        { queue := [p], retryCounts := [], searches := 0, cp := cp, fs := fs }
        = runPrefixLoop search maxDepth (n + 2)
        { queue := [p], retryCounts := [(p, 1)], searches := 1,
          cp := incrementErrors cp, fs := fs } :=
      runPrefixLoop_error_step search maxDepth (n + 2) p [] [] 0 cp fs hm hs
    have e2 := runPrefixLoop_error_step search maxDepth (n + 1) p []
      [(p, 1)] 1 (incrementErrors cp) fs hm hs
    rw [retryCountOf_cons_self] at e2
    simp only [MAX_RETRIES] at e2
    norm_num at e2
    have e3 : runPrefixLoop search maxDepth (n + 1)
        { queue := [], retryCounts := [(p, 2), (p, 1)], searches := 2,
          cp := incrementErrors (incrementErrors cp), fs := fs }
        = { queue := [], retryCounts := [(p, 2), (p, 1)], searches := 2,
            cp := incrementErrors (incrementErrors cp), fs := fs } :=
      runPrefixLoop_nil search maxDepth (n + 1) _ rfl
    rw [e1, e2, e3]
    refine ⟨rfl, rfl, ?_, ?_, rfl⟩
    · show cp.stats.errors + 1 + 1 = cp.stats.errors + MAX_RETRIES
      simp [MAX_RETRIES]
    · simp [retryCountOf, MAX_RETRIES]
  · intro search now n u cp fs hs hm
    have e1 : runComboLoop search now (n + 3)
        { queue := [u], retryCounts := [], searches := 0, cp := cp, fs := fs }
        = runComboLoop search now (n + 2)
        { queue := [u], retryCounts := [(comboKeyOf u, 1)], searches := 1,
          cp := incrementErrors cp, fs := fs } :=
      runComboLoop_error_step search now (n + 2) u [] [] 0 cp fs hm hs
    have e2 := runComboLoop_error_step search now (n + 1) u []
      [(comboKeyOf u, 1)] 1 (incrementErrors cp) fs hm hs
    rw [retryCountOf_cons_self] at e2
    simp only [MAX_RETRIES] at e2
    norm_num at e2
    have e3 : runComboLoop search now (n + 1)
        { queue := [], retryCounts := [(comboKeyOf u, 2), (comboKeyOf u, 1)],
          searches := 2, cp := incrementErrors (incrementErrors cp), fs := fs }
        = { queue := [], retryCounts := [(comboKeyOf u, 2), (comboKeyOf u, 1)],
            searches := 2, cp := incrementErrors (incrementErrors cp), fs := fs } :=
      runComboLoop_nil search now (n + 1) _ rfl
    rw [e1, e2, e3]
    refine ⟨rfl, rfl, ?_, ?_⟩
    · show cp.stats.errors + 1 + 1 = cp.stats.errors + MAX_RETRIES
      simp [MAX_RETRIES]
    · simp [retryCountOf, MAX_RETRIES]

/-- Claim C1, witness: the amended abandonment accounting evaluated on a
concrete always-failing prefix unit and a concrete always-failing
combination unit. -/
theorem c1_abandonment_accounting_witness :
    retryCountOf (runPrefixLoop failOracle MAX_PREFIX_DEPTH 3
      { queue := ["A"], retryCounts := [], searches := 0,
        cp := initialCheckpoint, fs := emptyFS }).retryCounts "A" = MAX_RETRIES
    ∧ retryCountOf (runComboLoop failComboOracle "t" 3
      { queue := [("Nurse", "Victoria", none, "A")], retryCounts := [],
        searches := 0, cp := initialCheckpoint, fs := emptyFS }).retryCounts
        (comboKeyOf ("Nurse", "Victoria", none, "A")) = MAX_RETRIES :=
  ⟨(c1_abandonment_accounting.1 failOracle MAX_PREFIX_DEPTH 0 "A"
      initialCheckpoint emptyFS rfl (by decide)).2.2.2.1,
   (c1_abandonment_accounting.2 failComboOracle "t" 0
      ("Nurse", "Victoria", none, "A") initialCheckpoint emptyFS rfl
      (by decide)).2.2.2⟩

/-- Claim C8, counterexample: a completed adaptive run (the queue is
drained) whose unit `"A"` was expanded leaves `"A"` outside the completed
set; the second run with `resume=true` against the same checkpoint then
performs a search (the ghost search counter is non-zero) and adds `"A"` to
the completed-prefix set — it is not an immediate no-op. -/
theorem c8_counterexample :
    c8FirstRun.queue = []
    ∧ "A" ∉ c8FirstRun.cp.completedPrefixes
    ∧ c8SecondRun.searches ≠ 0
    ∧ "A" ∈ c8SecondRun.cp.completedPrefixes := by
  decide

/-- Claim C8, amended: re-running completed adaptive discovery with
`resume=true` adds zero new discovered ids (the discovered-id set is
unchanged), but it re-searches each expanded-but-unmarked parent unit once
and adds that parent's key to the completed set; here the second run
performs exactly one search, completes `"A"`, and terminates with an empty
queue. -/
theorem c8_idempotent_resumption :
    c8SecondRun.cp.scrapedRegIds = c8FirstRun.cp.scrapedRegIds
    ∧ c8SecondRun.cp.completedPrefixes
        = insert "A" c8FirstRun.cp.completedPrefixes
    ∧ c8SecondRun.searches = 1
    ∧ c8SecondRun.queue = [] := by
  decide

/-! ### Lemmas about the raw-backup journal and `load` -/

/-- The recovery fold ends with the union of the starting set and the
stripped non-empty journal lines. -/
theorem recoverFold_fst (ls : List String) (s : Finset String) (n : Nat) :
    (recoverFold ls (s, n)).1 = s ∪ lineSet ls := by
  induction ls generalizing s n with
  | nil => simp [recoverFold, lineSet]
  | cons l ls ih =>
      by_cases h1 : pyStrip l = ""
      · rw [recoverFold, if_neg (by simp [h1])]
        rw [ih]
        have hls : lineSet (l :: ls) = lineSet ls := by simp [lineSet, h1]
        rw [hls]
      · have hcons : lineSet (l :: ls) = insert (pyStrip l) (lineSet ls) := by
          simp [lineSet, h1]
        by_cases h2 : pyStrip l ∈ s
        · rw [recoverFold, if_neg (by simp [h2]), ih, hcons,
              Finset.union_insert,
              Finset.insert_eq_self.mpr (Finset.mem_union_left _ h2)]
        · rw [recoverFold, if_pos ⟨h1, h2⟩, ih, hcons,
              Finset.insert_union, Finset.union_insert]

/-- The recovery counter counts exactly the growth of the set. -/
theorem recoverFold_snd (ls : List String) (s : Finset String) (n : Nat) :
    (recoverFold ls (s, n)).2 + s.card = n + (recoverFold ls (s, n)).1.card := by
  induction ls generalizing s n with
  | nil => simp [recoverFold]
  | cons l ls ih =>
      by_cases h : pyStrip l ≠ "" ∧ pyStrip l ∉ s
      · rw [recoverFold, if_pos h]
        have hih := ih (insert (pyStrip l) s) (n + 1)
        rw [Finset.card_insert_of_not_mem h.2] at hih
        omega
      · rw [recoverFold, if_neg h]
        exact ih s n

/-- Nothing is recovered iff every non-empty journal line is already
present. -/
theorem recoverFold_snd_zero_iff (ls : List String) (s : Finset String) :
    (recoverFold ls (s, 0)).2 = 0 ↔ lineSet ls ⊆ s := by
  have hf := recoverFold_fst ls s 0
  have hs := recoverFold_snd ls s 0
  constructor
  · intro h0
    have hsub : s ⊆ (recoverFold ls (s, 0)).1 := by
      rw [hf]; exact Finset.subset_union_left
    have hcard : (recoverFold ls (s, 0)).1.card ≤ s.card := by omega
    have heq : s = (recoverFold ls (s, 0)).1 :=
      Finset.eq_of_subset_of_card_le hsub hcard
    rw [hf] at heq
    exact Finset.union_eq_left.mp heq.symm
  · intro hsub
    have : s ∪ lineSet ls = s := Finset.union_eq_left.mpr hsub
    rw [this] at hf
    rw [hf] at hs
    omega

/-- `save` never touches the in-memory discovered set. -/
theorem save_scraped (now : String) (cp : Checkpoint) (fs : FS) :
    (save now cp fs).2.1.scrapedRegIds = cp.scrapedRegIds := rfl

/-- `save` leaves the journal alone. -/
theorem save_raw (now : String) (cp : Checkpoint) (fs : FS) :
    (save now cp fs).2.2.rawBackupFile = fs.rawBackupFile := rfl

/-- `save` leaves the legacy flat file alone. -/
theorem save_legacy (now : String) (cp : Checkpoint) (fs : FS) :
    (save now cp fs).2.2.legacyRegIdsFile = fs.legacyRegIdsFile := rfl

/-- After `save` the discovered-ids file holds the in-memory set. -/
theorem save_idsFile (now : String) (cp : Checkpoint) (fs : FS) :
    (save now cp fs).2.2.discoveredIdsFile
      = some (mkDiscoveredIdsRecord (idsMetaUpdate now (statsBeforeWrite now cp))) :=
  rfl

/-- After `save` the snapshot file holds the serialized checkpoint. -/
theorem save_checkpointFile (now : String) (cp : Checkpoint) (fs : FS) :
    (save now cp fs).2.2.checkpointFile
      = some (mkCheckpointRecord (statsBeforeWrite now cp)) := rfl

/-- Recovery replays the non-empty journal lines into the discovered set. -/
theorem recover_scraped (now : String) (cp : Checkpoint) (fs : FS) :
    (recoverFromRawBackup now cp fs).2.1.scrapedRegIds
      = cp.scrapedRegIds ∪ rawSet fs := by
  cases h : fs.rawBackupFile with
  | none => simp [recoverFromRawBackup, h, rawSet, lineSet]
  | some lines =>
      have hf := recoverFold_fst lines cp.scrapedRegIds 0
      have hraw : rawSet fs = lineSet lines := by simp [rawSet, h]
      simp only [recoverFromRawBackup, h]
      split
      · rw [save_scraped]
        rw [hraw]
        exact hf
      · rw [hraw]
        exact hf

/-- When every journal line is already present, recovery is a no-op on the
filesystem. -/
theorem recover_fs_of_sub (now : String) (cp : Checkpoint) (fs : FS)
    (lines : List String) (h : fs.rawBackupFile = some lines)
    (hsub : lineSet lines ⊆ cp.scrapedRegIds) :
    (recoverFromRawBackup now cp fs).2.2 = fs := by
  have h0 : (recoverFold lines (cp.scrapedRegIds, 0)).2 = 0 :=
    (recoverFold_snd_zero_iff lines cp.scrapedRegIds).mpr hsub
  simp [recoverFromRawBackup, h, h0]

/-- When some journal line is new, recovery ends with the `save` it
triggers. -/
theorem recover_of_new (now : String) (cp : Checkpoint) (fs : FS)
    (lines : List String) (h : fs.rawBackupFile = some lines)
    (hnew : ¬ lineSet lines ⊆ cp.scrapedRegIds) :
    (recoverFromRawBackup now cp fs).2
      = (save now
          { cp with scrapedRegIds := (recoverFold lines (cp.scrapedRegIds, 0)).1 }
          fs).2 := by
  have h0 : ¬ (recoverFold lines (cp.scrapedRegIds, 0)).2 = 0 := by
    intro hz
    exact hnew ((recoverFold_snd_zero_iff lines cp.scrapedRegIds).mp hz)
  have hpos : 0 < (recoverFold lines (cp.scrapedRegIds, 0)).2 :=
    Nat.pos_of_ne_zero h0
  simp [recoverFromRawBackup, h, hpos]

/-- The discovered-ids phase of `load` never touches the journal file. -/
theorem loadIdsPhase_raw (now : String) (cp : Checkpoint) (fs : FS) :
    (loadIdsPhase now cp fs).2.rawBackupFile = fs.rawBackupFile := by
  cases hd : fs.discoveredIdsFile with
  | some d => simp [loadIdsPhase, hd]
  | none =>
      cases hl : fs.legacyRegIdsFile with
      | some lines => simp [loadIdsPhase, hd, hl, saveDiscoveredIdsJson]
      | none => simp [loadIdsPhase, hd, hl]

/-- With the discovered-ids file present, the phase replaces the set and
leaves the filesystem alone. -/
theorem loadIdsPhase_ids (now : String) (cp : Checkpoint) (fs : FS)
    (d : DiscoveredIdsRecord) (hd : fs.discoveredIdsFile = some d) :
    loadIdsPhase now cp fs =
      ({ cp with scrapedRegIds := d.regIds,
                 discoveryStartedAt := d.startedAt,
                 discoveryLastUpdated := d.lastUpdated }, fs) := by
  simp [loadIdsPhase, hd]

/-- `load` returns exactly the filesystem produced by the recovery phase. -/
theorem load_fs (now : String) (cp : Checkpoint) (fs : FS) :
    (load now cp fs).2.2
      = (recoverFromRawBackup now (loadIdsPhase now cp fs).1
          (loadIdsPhase now cp fs).2).2.2 := by
  simp only [load]
  split <;> rfl

/-- `load`'s final discovered set is the recovery phase's. -/
theorem load_cp_scraped (now : String) (cp : Checkpoint) (fs : FS) :
    (load now cp fs).2.1.scrapedRegIds
      = (recoverFromRawBackup now (loadIdsPhase now cp fs).1
          (loadIdsPhase now cp fs).2).2.1.scrapedRegIds := by
  simp only [load]
  split <;> rfl

/-- `load` always merges the journal into the ids-file baseline. -/
theorem load_scraped (now : String) (cp : Checkpoint) (fs : FS) :
    (load now cp fs).2.1.scrapedRegIds
      = (loadIdsPhase now cp fs).1.scrapedRegIds ∪ rawSet fs := by
  rw [load_cp_scraped, recover_scraped]
  have : rawSet (loadIdsPhase now cp fs).2 = rawSet fs := by
    unfold rawSet
    rw [loadIdsPhase_raw]
  rw [this]

/-! ### The journal invariant and monotonicity of the discovered set -/

/-- What the discovered-ids file holds right after any `save`. -/
theorem save_idsFile_spec (now : String) (cp : Checkpoint) (fs : FS) :
    ∃ r, (save now cp fs).2.2.discoveredIdsFile = some r
      ∧ r.regIds = cp.scrapedRegIds
      ∧ r.totalCount = cp.scrapedRegIds.card :=
  ⟨_, rfl, rfl, rfl⟩

/-- Claim C3: with a discovered-ids file and a raw backup journal present,
`load` always replays the journal and merges every id not already present;
it leaves the filesystem untouched exactly when the journal adds nothing;
and when the journal holds the file's ids plus one extra id, the in-memory
set afterwards is the file's ids plus that id (size N+1) and an immediate
snapshot save has written the discovered-ids file with those N+1 ids. -/
theorem c3_crash_journal_recovery :
    ∀ (now : String) (cp : Checkpoint) (fs : FS) (d : DiscoveredIdsRecord)
      (raws : List String),
      fs.discoveredIdsFile = some d →
      fs.rawBackupFile = some raws →
      ((load now cp fs).2.1.scrapedRegIds = d.regIds ∪ lineSet raws)
      ∧ (lineSet raws ⊆ d.regIds → (load now cp fs).2.2 = fs)
      ∧ (∀ x, x ∉ d.regIds → x ∈ lineSet raws →
          lineSet raws ⊆ insert x d.regIds →
          (load now cp fs).2.1.scrapedRegIds = insert x d.regIds
          ∧ (load now cp fs).2.1.scrapedRegIds.card = d.regIds.card + 1
          ∧ ∃ r, (load now cp fs).2.2.discoveredIdsFile = some r
               ∧ r.regIds = insert x d.regIds
               ∧ r.totalCount = d.regIds.card + 1) := by
  intro now cp fs d raws hd hraw
  have hrs : rawSet fs = lineSet raws := by
    unfold rawSet
    rw [hraw]
    rfl
  have hmerge : (load now cp fs).2.1.scrapedRegIds = d.regIds ∪ lineSet raws := by
    rw [load_scraped, hrs, loadIdsPhase_ids now cp fs d hd]
  refine ⟨hmerge, ?_, ?_⟩
  · intro hsub
    rw [load_fs, loadIdsPhase_ids now cp fs d hd]
    exact recover_fs_of_sub now _ fs raws hraw hsub
  · intro x hxd hx hsub2
    have hset : d.regIds ∪ lineSet raws = insert x d.regIds := by
      apply Finset.Subset.antisymm
      · exact Finset.union_subset (Finset.subset_insert x d.regIds) hsub2
      · exact Finset.insert_subset_iff.mpr
          ⟨Finset.mem_union_right _ hx, Finset.subset_union_left⟩
    have hc1 : (load now cp fs).2.1.scrapedRegIds = insert x d.regIds := by
      rw [hmerge, hset]
    refine ⟨hc1, ?_, ?_⟩
    · rw [hc1, Finset.card_insert_of_not_mem hxd]
    · have hnew : ¬ lineSet raws ⊆ d.regIds := fun hs => hxd (hs hx)
      have hrec := recover_of_new now
        { cp with scrapedRegIds := d.regIds,
                  discoveryStartedAt := d.startedAt,
                  discoveryLastUpdated := d.lastUpdated } fs raws hraw hnew
      have hfs2 : (load now cp fs).2.2
          = (save now
              { cp with scrapedRegIds := (recoverFold raws (d.regIds, 0)).1,
                        discoveryStartedAt := d.startedAt,
                        discoveryLastUpdated := d.lastUpdated } fs).2.2 := by
        rw [load_fs, loadIdsPhase_ids now cp fs d hd]
        exact congrArg Prod.snd hrec
      rw [hfs2]
      refine ⟨_, save_idsFile now _ fs, ?_, ?_⟩
      · show (recoverFold raws (d.regIds, 0)).1 = insert x d.regIds
        rw [recoverFold_fst]
        exact hset
      · show (recoverFold raws (d.regIds, 0)).1.card = d.regIds.card + 1
        rw [recoverFold_fst, hset, Finset.card_insert_of_not_mem hxd]

/-- Claim C3, witness: the file holds `{"a","b"}` (N = 2), the journal
holds `a`, `b` and the unsynced `c`; after `load` the in-memory set is the
three ids and the rewritten discovered-ids file reports `total_count = 3`. -/
theorem c3_crash_journal_recovery_witness :
    (load "t" initialCheckpoint c3fs).2.1.scrapedRegIds = insert "c" c3rec.regIds
    ∧ (load "t" initialCheckpoint c3fs).2.1.scrapedRegIds.card
        = c3rec.regIds.card + 1
    ∧ ∃ r, (load "t" initialCheckpoint c3fs).2.2.discoveredIdsFile = some r
         ∧ r.regIds = insert "c" c3rec.regIds
         ∧ r.totalCount = c3rec.regIds.card + 1 :=
  (c3_crash_journal_recovery "t" initialCheckpoint c3fs c3rec ["a", "b", "c"]
    rfl rfl).2.2 "c" (by decide) (by decide) (by decide)

end AHPRA
